import Mathlib

/-!
Verification of the lending/catalog domain model implemented in
`src/biblioteca.py` (classes `Publicacion`, `Libro`, `Revista`, `DVD`,
`Usuario`, `Prestamo`, `Biblioteca`).

Modelling conventions of the shallow embedding:

* Timestamps (`datetime`) are rational numbers measured in days since an
  arbitrary epoch, so `timedelta(days = n)` is `+ n` and `timedelta.days`
  is `Int.floor` (Python's `timedelta.days` floors the full delta,
  microseconds included, which floor on rationals reproduces exactly).
  Every place where the Python code samples `datetime.now()` takes the
  current time as an explicit argument instead.
* Monetary amounts (`float` in the source, always produced by sums and
  products of integers with 1.0, 0.5 and 2.0, all exact in binary
  floating point at these magnitudes) are rationals.
* Python object mutation becomes explicit state passing: a method that
  mutates `self` returns the updated value; a method that can `raise`
  returns the `ValueError` message alongside.  A raised exception does
  not roll mutations back, so fallible methods whose mutations can
  precede the failing point return `Option String × State` (the state is
  returned in both outcomes), while methods that check before any
  mutation use `Except String State`.
* Aliasing (a `Prestamo` holding references to its `Usuario` and
  `Publicacion`, which also sit in the `Biblioteca` lists) is rendered by
  keying on the unique `id` fields: lookups mirror `buscar_*`, which
  returns the first element with the requested id, and object mutation
  becomes replacement of the first element with the matching id.
-/

/-- The three concrete subclasses of the abstract class `Publicacion`,
with the extra fields each subclass constructor stores
(`Libro(autor, isbn)`, `Revista(numero_edicion)`, `DVD(duracion_minutos)`). -/
inductive Variante where
  | libro (autor : String) (isbn : String)
  | revista (numeroEdicion : Int)
  | dvd (duracionMinutos : Int)
deriving DecidableEq, Repr

/-- State shared by every `Publicacion`: `_id`, `_titulo`, `_anio` and the
mutable `_disponible` flag (initialised to `True` by `__init__`), plus the
variant tag selecting the concrete subclass. -/
structure Publicacion where
  id : Nat
  titulo : String
  anio : Int
  disponible : Bool
  variante : Variante
deriving DecidableEq, Repr

namespace Publicacion

/-- `Publicacion.__init__`: `_disponible` starts `True`. -/
def init (id : Nat) (titulo : String) (anio : Int) (v : Variante) : Publicacion :=
  ⟨id, titulo, anio, true, v⟩

/-- `Publicacion.marcar_prestado`: raises when `_disponible` is already
`False`, otherwise sets `_disponible = False`. -/
def marcar_prestado (p : Publicacion) : Except String Publicacion :=
  if p.disponible = false then
    .error "La publicación ya está prestada"
  else
    .ok { p with disponible := false }

/-- `Publicacion.marcar_devuelto`: raises when `_disponible` is already
`True`, otherwise sets `_disponible = True`. -/
def marcar_devuelto (p : Publicacion) : Except String Publicacion :=
  if p.disponible = true then
    .error "La publicación no está prestada"
  else
    .ok { p with disponible := true }

end Publicacion

namespace Variante

/-- `obtener_tipo`, dispatched over the three subclasses. -/
def obtener_tipo (v : Variante) : String :=
  match v with
  | .libro _ _ => "Libro"
  | .revista _ => "Revista"
  | .dvd _ => "DVD"

/-- `calcular_penalizacion_retraso`, dispatched over the three
subclasses: `Libro` charges `dias_retraso * 1.0`, `Revista` charges
`dias_retraso * 0.5`, `DVD` charges `dias_retraso * 2.0`. -/
def calcular_penalizacion_retraso (v : Variante) (diasRetraso : Int) : ℚ :=
  match v with
  | .libro _ _ => diasRetraso * 1
  | .revista _ => diasRetraso * (1 / 2)
  | .dvd _ => diasRetraso * 2

end Variante

/-- State of a `Usuario`: `_id`, `_nombre`, `_email`, the mutable list
`_prestamos_activos` (here the ids of the referenced `Prestamo` objects,
which are unique) and `_penalizacion_acumulada` (initially `0.0`). -/
structure Usuario where
  id : Nat
  nombre : String
  email : String
  prestamosActivos : List Nat
  penalizacionAcumulada : ℚ
deriving DecidableEq, Repr

namespace Usuario

/-- `Usuario.__init__`: empty active-loan list, zero penalty. -/
def init (id : Nat) (nombre : String) (email : String) : Usuario :=
  ⟨id, nombre, email, [], 0⟩

/-- `Usuario.agregar_prestamo`: appends to `_prestamos_activos`. -/
def agregar_prestamo (u : Usuario) (prestamoId : Nat) : Usuario :=
  { u with prestamosActivos := u.prestamosActivos ++ [prestamoId] }

/-- `Usuario.remover_prestamo`: `list.remove` guarded by `in`, i.e. remove
the first occurrence if present, otherwise do nothing — exactly
`List.erase`. -/
def remover_prestamo (u : Usuario) (prestamoId : Nat) : Usuario :=
  { u with prestamosActivos := u.prestamosActivos.erase prestamoId }

/-- `Usuario.puede_pedir_prestamo`: `False` when the active-loan list has
length `>= 3`, `False` when `_penalizacion_acumulada > 0`, `True`
otherwise. -/
def puede_pedir_prestamo (u : Usuario) : Bool :=
  if u.prestamosActivos.length ≥ 3 then false
  else if u.penalizacionAcumulada > 0 then false
  else true

/-- `Usuario.agregar_penalizacion`: adds `monto` to the accumulated
penalty. -/
def agregar_penalizacion (u : Usuario) (monto : ℚ) : Usuario :=
  { u with penalizacionAcumulada := u.penalizacionAcumulada + monto }

/-- `Usuario.pagar_penalizacion`: raises when `monto` exceeds the
accumulated penalty, otherwise subtracts it. -/
def pagar_penalizacion (u : Usuario) (monto : ℚ) : Except String Usuario :=
  if monto > u.penalizacionAcumulada then
    .error "El monto excede la penalización acumulada"
  else
    .ok { u with penalizacionAcumulada := u.penalizacionAcumulada - monto }

end Usuario

/-- State of a `Prestamo`: the user and publication references are
rendered by their unique ids; `_fecha_devolucion_real` starts `None` and
`_penalizacion` starts `0.0`. -/
structure Prestamo where
  id : Nat
  usuarioId : Nat
  publicacionId : Nat
  fechaPrestamo : ℚ
  fechaDevolucionEsperada : ℚ
  fechaDevolucionReal : Option ℚ
  penalizacion : ℚ
deriving DecidableEq, Repr

namespace Prestamo

/-- `Prestamo.__init__(id, usuario, publicacion, dias_prestamo)`: captures
the borrow timestamp (`datetime.now()`, here the explicit `now`) and sets
the due timestamp to `now + timedelta(days = dias_prestamo)`.  The Python
parameter `dias_prestamo` defaults to `7`; callers that omit it are
rendered by passing `7` explicitly. -/
def init (id : Nat) (usuarioId : Nat) (publicacionId : Nat) (now : ℚ)
    (diasPrestamo : Int) : Prestamo :=
  ⟨id, usuarioId, publicacionId, now, now + diasPrestamo, none, 0⟩

/-- `Prestamo.esta_vencido`: `False` once returned (a `datetime` is always
truthy), otherwise `now > _fecha_devolucion_esperada`. -/
def esta_vencido (p : Prestamo) (now : ℚ) : Bool :=
  if p.fechaDevolucionReal.isSome then false
  else now > p.fechaDevolucionEsperada

/-- `Prestamo.calcular_dias_retraso`: `0` unless overdue, otherwise
`max 0 ((now - esperada).days)`. -/
def calcular_dias_retraso (p : Prestamo) (now : ℚ) : Int :=
  if p.esta_vencido now = false then 0
  else max 0 ⌊now - p.fechaDevolucionEsperada⌋

/-- `Prestamo.devolver`, acting on the loan together with the `Usuario`
and `Publicacion` objects it references.  Mirrors the source order:
raise if `_fecha_devolucion_real` is already set; record the return
timestamp; when the return is strictly after the due date, compute
`dias_retraso = (real - esperada).days`, store the variant penalty on the
loan and post it to the user; call `publicacion.marcar_devuelto()` (whose
exception would propagate with the earlier mutations kept, hence the
`Option String × _` shape); finally `usuario.remover_prestamo(self)`. -/
def devolver (p : Prestamo) (u : Usuario) (pub : Publicacion) (now : ℚ) :
    Option String × Prestamo × Usuario × Publicacion :=
  if p.fechaDevolucionReal.isSome then
    (some "El préstamo ya fue devuelto", p, u, pub)
  else
    let p1 : Prestamo := { p with fechaDevolucionReal := some now }
    let pu : Prestamo × Usuario :=
      if now > p.fechaDevolucionEsperada then
        let diasRetraso : Int := ⌊now - p.fechaDevolucionEsperada⌋
        let pena : ℚ := pub.variante.calcular_penalizacion_retraso diasRetraso
        ({ p1 with penalizacion := pena }, u.agregar_penalizacion pena)
      else
        (p1, u)
    match pub.marcar_devuelto with
    | .error e => (some e, pu.1, pu.2, pub)
    | .ok pub2 => (none, pu.1, pu.2.remover_prestamo p.id, pub2)

end Prestamo

/-- State of a `Biblioteca`: the three collections (append-only lists,
as in `__init__`) and `_next_prestamo_id`, initialised to `1`. -/
structure Biblioteca where
  publicaciones : List Publicacion
  usuarios : List Usuario
  prestamos : List Prestamo
  nextPrestamoId : Nat
deriving DecidableEq, Repr

/-- Replace the first publication whose `id` matches (the object
`buscar_publicacion` would alias) with the updated value; Python mutates
that object in place. -/
def reemplazarPublicacion (l : List Publicacion) (i : Nat) (p : Publicacion) :
    List Publicacion :=
  match l with
  | [] => []
  | q :: rest => if q.id = i then p :: rest else q :: reemplazarPublicacion rest i p

/-- Replace the first user whose `id` matches (the object
`buscar_usuario` would alias) with the updated value. -/
def reemplazarUsuario (l : List Usuario) (i : Nat) (u : Usuario) : List Usuario :=
  match l with
  | [] => []
  | q :: rest => if q.id = i then u :: rest else q :: reemplazarUsuario rest i u

/-- Replace the first loan whose `id` matches with the updated value. -/
def reemplazarPrestamo (l : List Prestamo) (i : Nat) (p : Prestamo) : List Prestamo :=
  match l with
  | [] => []
  | q :: rest => if q.id = i then p :: rest else q :: reemplazarPrestamo rest i p

namespace Biblioteca

/-- `Biblioteca.__init__`: empty collections, loan-id counter at `1`. -/
def init : Biblioteca := ⟨[], [], [], 1⟩

/-- `Biblioteca.agregar_publicacion`: append to the catalog list. -/
def agregar_publicacion (b : Biblioteca) (p : Publicacion) : Biblioteca :=
  { b with publicaciones := b.publicaciones ++ [p] }

/-- `Biblioteca.agregar_usuario`: append to the user list. -/
def agregar_usuario (b : Biblioteca) (u : Usuario) : Biblioteca :=
  { b with usuarios := b.usuarios ++ [u] }

/-- `Biblioteca.buscar_publicacion`: first publication with the given id,
`None` when absent. -/
def buscar_publicacion (b : Biblioteca) (i : Nat) : Option Publicacion :=
  b.publicaciones.find? (fun p => p.id = i)

/-- `Biblioteca.buscar_usuario`: first user with the given id, `None`
when absent. -/
def buscar_usuario (b : Biblioteca) (i : Nat) : Option Usuario :=
  b.usuarios.find? (fun u => u.id = i)

/-- `Biblioteca.crear_prestamo(usuario_id, publicacion_id)`.  The four
guards raise, in source order: user not found, publication not found,
user not eligible, publication unavailable — each before any mutation.
Then `Prestamo(next_id, usuario, publicacion)` is constructed (the
constructor's `dias_prestamo` parameter is left at its default `7`; the
call site passes no period), `_next_prestamo_id` is incremented, and only
then is `publicacion.marcar_prestado()` called — were it to raise, the
incremented counter would persist, hence the `Option String × _` shape —
followed by `usuario.agregar_prestamo(prestamo)` and appending to the
loans list.  Returns the error message if any, the updated library and
the created loan. -/
def crear_prestamo (b : Biblioteca) (usuarioId : Nat) (publicacionId : Nat)
    (now : ℚ) : Option String × Biblioteca × Option Prestamo :=
  match b.buscar_usuario usuarioId with
  | none => (some "Usuario no encontrado", b, none)
  | some usuario =>
    match b.buscar_publicacion publicacionId with
    | none => (some "Publicación no encontrada", b, none)
    | some publicacion =>
      if usuario.puede_pedir_prestamo = false then
        (some "El usuario no puede pedir préstamos en este momento", b, none)
      else if publicacion.disponible = false then
        (some "La publicación no está disponible", b, none)
      else
        let prestamo := Prestamo.init b.nextPrestamoId usuario.id publicacion.id now 7
        let b1 := { b with nextPrestamoId := b.nextPrestamoId + 1 }
        match publicacion.marcar_prestado with
        | .error e => (some e, b1, none)
        | .ok pub2 =>
          let b2 := { b1 with
            publicaciones := reemplazarPublicacion b1.publicaciones publicacion.id pub2
            usuarios := reemplazarUsuario b1.usuarios usuario.id
              (usuario.agregar_prestamo prestamo.id)
            prestamos := b1.prestamos ++ [prestamo] }
          (none, b2, some prestamo)

/-- `Biblioteca.obtener_prestamos_vencidos`: the loans currently
overdue. -/
def obtener_prestamos_vencidos (b : Biblioteca) (now : ℚ) : List Prestamo :=
  b.prestamos.filter (fun p => p.esta_vencido now)

/-- The complete set of public methods the class `Biblioteca` defines in
the source (its exposed operation surface).  The source defines no
catalog-level return operation: returning is done by calling `devolver`
directly on the `Prestamo` object. -/
def metodos : List String :=
  ["agregar_publicacion", "agregar_usuario", "buscar_publicacion",
   "buscar_usuario", "crear_prestamo", "obtener_prestamos_vencidos"]

/-- Catalog-level return, dispatching on a loan id.  The source class has
no such method — callers hold the `Prestamo` object and invoke
`prestamo.devolver()` on it directly (as the repository's tests do); this
definition renders that direct call inside the state-passing embedding,
resolving the loan and the user/publication objects it references by
their ids and writing the mutated objects back.  The loan-id-absent
branch is modelled from the spec, which describes a `returnLoan(loanId)`
failing with `LoanNotFound`; in the source that situation is simply a
caller without a loan reference, and nothing happens.  The reference
branches for the user/publication of a recorded loan cannot fail in the
source (a loan holds the objects themselves); they return the state
unchanged. -/
def devolver_prestamo (b : Biblioteca) (prestamoId : Nat) (now : ℚ) :
    Option String × Biblioteca :=
  match b.prestamos.find? (fun p => p.id = prestamoId) with
  | none => (some "Préstamo no encontrado", b)
  | some p =>
    match b.buscar_usuario p.usuarioId, b.buscar_publicacion p.publicacionId with
    | some u, some pub =>
      let r := p.devolver u pub now
      (r.1, { b with
        prestamos := reemplazarPrestamo b.prestamos p.id r.2.1
        usuarios := reemplazarUsuario b.usuarios p.usuarioId r.2.2.1
        publicaciones := reemplazarPublicacion b.publicaciones p.publicacionId r.2.2.2 })
    | _, _ => (some "Préstamo no encontrado", b)

/-- Modelled from the spec: the `createLoan(patronId, publicationId,
period)` the spec describes, with a caller-supplied loan-period length
forwarded to the loan constructor (due = borrow + period).  The source's
`crear_prestamo` accepts no such parameter; this definition exists only
to be compared against it. -/
def crear_prestamo_spec (b : Biblioteca) (usuarioId : Nat) (publicacionId : Nat)
    (now : ℚ) (periodo : Int) : Option String × Biblioteca × Option Prestamo :=
  match b.buscar_usuario usuarioId with
  | none => (some "Usuario no encontrado", b, none)
  | some usuario =>
    match b.buscar_publicacion publicacionId with
    | none => (some "Publicación no encontrada", b, none)
    | some publicacion =>
      if usuario.puede_pedir_prestamo = false then
        (some "El usuario no puede pedir préstamos en este momento", b, none)
      else if publicacion.disponible = false then
        (some "La publicación no está disponible", b, none)
      else
        let prestamo := Prestamo.init b.nextPrestamoId usuario.id publicacion.id now periodo
        let b1 := { b with nextPrestamoId := b.nextPrestamoId + 1 }
        match publicacion.marcar_prestado with
        | .error e => (some e, b1, none)
        | .ok pub2 =>
          let b2 := { b1 with
            publicaciones := reemplazarPublicacion b1.publicaciones publicacion.id pub2
            usuarios := reemplazarUsuario b1.usuarios usuario.id
              (usuario.agregar_prestamo prestamo.id)
            prestamos := b1.prestamos ++ [prestamo] }
          (none, b2, some prestamo)

end Biblioteca

/-- External operations on a library, for reasoning about arbitrary call
sequences: registering a publication or a user (constructed by the
respective `__init__`, as the repository's callers do), creating a loan
through the catalog, and returning a loan (a direct `devolver` call on
the loan object, dispatched by id — see `Biblioteca.devolver_prestamo`). -/
inductive Operacion where
  | registrarPublicacion (id : Nat) (titulo : String) (anio : Int) (v : Variante)
  | registrarUsuario (id : Nat) (nombre : String) (email : String)
  | crearPrestamo (usuarioId : Nat) (publicacionId : Nat) (now : ℚ)
  | devolverPrestamo (prestamoId : Nat) (now : ℚ)

/-- Apply one external operation to the library state. -/
def aplicar (b : Biblioteca) : Operacion → Biblioteca
  | .registrarPublicacion i t a v => b.agregar_publicacion (Publicacion.init i t a v)
  | .registrarUsuario i n e => b.agregar_usuario (Usuario.init i n e)
  | .crearPrestamo uid pid now => (b.crear_prestamo uid pid now).2.1
  | .devolverPrestamo pid now => (b.devolver_prestamo pid now).2

/-- Run a sequence of external operations from a fresh library. -/
def ejecutar (ops : List Operacion) : Biblioteca :=
  ops.foldl aplicar Biblioteca.init

/-- The per-variant daily late-fee rate named by the spec
(`lateFeeRate()`: Book 1.00/day, Magazine 0.50/day, DVD 2.00/day), stated
separately so the penalty law can be phrased as `days * rate`. -/
def tarifaDiaria (v : Variante) : ℚ :=
  match v with
  | .libro _ _ => 1
  | .revista _ => 1 / 2
  | .dvd _ => 2

/-- The spec's patron invariant: every registered user holds at most 3
active loans. -/
def invarianteTope (b : Biblioteca) : Prop :=
  ∀ u ∈ b.usuarios, u.prestamosActivos.length ≤ 3

/-- Concrete fixture: a freshly registered user. -/
def uDemo : Usuario := Usuario.init 1 "Ana" "ana@correo"

/-- Concrete fixture: an available book. -/
def pubDemo : Publicacion := Publicacion.init 10 "El Quijote" 1605 (.libro "Cervantes" "84-1")

/-- Concrete fixture: a library with one registered user and one
available book. -/
def bDemo : Biblioteca := (Biblioteca.init.agregar_usuario uDemo).agregar_publicacion pubDemo

/-- Concrete fixture: a user at the three-loan cap with no penalty (the
loan records themselves are irrelevant to the eligibility check, which
reads only the list length). -/
def uTope : Usuario := ⟨2, "Luis", "luis@correo", [1, 2, 3], 0⟩

/-- Concrete fixture: a user under the loan cap who owes a penalty. -/
def uMulta : Usuario := ⟨3, "Eva", "eva@correo", [], 10⟩

/-- Concrete fixture: a library holding one available book, the capped
user and the indebted user. -/
def bCausas : Biblioteca := ⟨[pubDemo], [uTope, uMulta], [], 4⟩

/-- Concrete fixture: a loan already returned (borrowed at day 0 for 7
days, returned at day 17 with the book's penalty 10 recorded). -/
def prDevuelto : Prestamo := ⟨1, 1, 10, 0, 7, some 17, 10⟩

/-- Concrete fixture: a loaned-out copy of the demo book. -/
def pubPrestada : Publicacion := { pubDemo with disponible := false }

/-- Concrete fixture: the loan `crear_prestamo` builds first on the demo
library (borrowed at day 0, due `0 + 7`). -/
def prActivo : Prestamo := Prestamo.init 1 1 10 0 7

/-- Concrete fixture: the same freshly created loan, written out as a
record. -/
def prCreado : Prestamo := ⟨1, 1, 10, 0, 0 + 7, none, 0⟩

/-- Bridging lemma: each subclass override of
`calcular_penalizacion_retraso` is the day count times the spec's daily
rate for that variant. -/
theorem calcular_penalizacion_eq_tarifa (v : Variante) (d : Int) :
    v.calcular_penalizacion_retraso d = d * tarifaDiaria v := by
  cases v <;> rfl

/-- Replacing the publication `find?` located by its own id leaves the
list unchanged (writing back an unmodified aliased object is a no-op). -/
theorem reemplazarPublicacion_encontrado (l : List Publicacion) (i : Nat) (p : Publicacion)
    (h : l.find? (fun q => q.id = i) = some p) : reemplazarPublicacion l i p = l := by
  induction l with
  | nil => rfl
  | cons q rest ih =>
    by_cases hq : q.id = i
    · simp [List.find?_cons, hq] at h
      subst h
      simp only [reemplazarPublicacion]
      rw [if_pos hq]
    · simp [List.find?_cons, hq] at h
      simp only [reemplazarPublicacion]
      rw [if_neg hq, ih h]

/-- Replacing the user `find?` located by its own id leaves the list
unchanged. -/
theorem reemplazarUsuario_encontrado (l : List Usuario) (i : Nat) (u : Usuario)
    (h : l.find? (fun q => q.id = i) = some u) : reemplazarUsuario l i u = l := by
  induction l with
  | nil => rfl
  | cons q rest ih =>
    by_cases hq : q.id = i
    · simp [List.find?_cons, hq] at h
      subst h
      simp only [reemplazarUsuario]
      rw [if_pos hq]
    · simp [List.find?_cons, hq] at h
      simp only [reemplazarUsuario]
      rw [if_neg hq, ih h]

/-- Replacing the loan `find?` located by its own id leaves the list
unchanged. -/
theorem reemplazarPrestamo_encontrado (l : List Prestamo) (i : Nat) (p : Prestamo)
    (h : l.find? (fun q => q.id = i) = some p) : reemplazarPrestamo l i p = l := by
  induction l with
  | nil => rfl
  | cons q rest ih =>
    by_cases hq : q.id = i
    · simp [List.find?_cons, hq] at h
      subst h
      simp only [reemplazarPrestamo]
      rw [if_pos hq]
    · simp [List.find?_cons, hq] at h
      simp only [reemplazarPrestamo]
      rw [if_neg hq, ih h]

/-- Members of a list after a replace-by-id are old members or the new
value. -/
theorem mem_reemplazarUsuario {l : List Usuario} {i : Nat} {v u : Usuario}
    (h : u ∈ reemplazarUsuario l i v) : u ∈ l ∨ u = v := by
  induction l with
  | nil => simp [reemplazarUsuario] at h
  | cons q rest ih =>
    simp only [reemplazarUsuario] at h
    by_cases hq : q.id = i
    · rw [if_pos hq] at h
      rcases List.mem_cons.mp h with h | h
      · right
        exact h
      · left
        exact List.mem_cons_of_mem _ h
    · rw [if_neg hq] at h
      rcases List.mem_cons.mp h with h | h
      · left
        exact h ▸ List.mem_cons_self _ _
      · rcases ih h with h1 | h1
        · left
          exact List.mem_cons_of_mem _ h1
        · right
          exact h1

/-- An eligible user is strictly under the three-loan cap. -/
theorem puede_implica_margen {u : Usuario} (h : u.puede_pedir_prestamo = true) :
    u.prestamosActivos.length < 3 := by
  by_contra hge
  unfold Usuario.puede_pedir_prestamo at h
  rw [if_pos (not_lt.mp hge)] at h
  exact Bool.false_ne_true h

/-- A return never lengthens the user's active-loan list. -/
theorem devolver_long_prestamos (p : Prestamo) (u : Usuario) (pub : Publicacion) (now : ℚ) :
    (p.devolver u pub now).2.2.1.prestamosActivos.length ≤ u.prestamosActivos.length := by
  unfold Prestamo.devolver
  by_cases hr : p.fechaDevolucionReal.isSome
  · simp [hr]
  · by_cases hv : now > p.fechaDevolucionEsperada <;>
      cases hm : pub.marcar_devuelto <;>
        simp [hr, hv, hm, Usuario.agregar_penalizacion, Usuario.remover_prestamo,
          List.length_erase_le]

/-- Step lemma: `crear_prestamo` preserves the three-loan cap over all
registered users. -/
theorem crear_prestamo_preserva_tope (b : Biblioteca) (uid pid : Nat) (now : ℚ)
    (h : invarianteTope b) : invarianteTope (b.crear_prestamo uid pid now).2.1 := by
  cases husr : b.buscar_usuario uid with
  | none => simpa [Biblioteca.crear_prestamo, husr] using h
  | some usuario =>
    cases hpub : b.buscar_publicacion pid with
    | none => simpa [Biblioteca.crear_prestamo, husr, hpub] using h
    | some publicacion =>
      by_cases hpuede : usuario.puede_pedir_prestamo = false
      · simpa [Biblioteca.crear_prestamo, husr, hpub, hpuede] using h
      · by_cases hdisp : publicacion.disponible = false
        · simpa [Biblioteca.crear_prestamo, husr, hpub, hpuede, hdisp] using h
        · cases hm : publicacion.marcar_prestado with
          | error e =>
            simpa [Biblioteca.crear_prestamo, husr, hpub, hpuede, hdisp, hm] using h
          | ok pub2 =>
            intro v hv
            simp only [Biblioteca.crear_prestamo, husr, hpub, hpuede, hdisp, hm,
              if_false, if_neg, Bool.false_eq_true] at hv
            rcases mem_reemplazarUsuario hv with hmem | heq
            · exact h v hmem
            · subst heq
              have hlt : usuario.prestamosActivos.length < 3 :=
                puede_implica_margen (eq_true_of_ne_false hpuede)
              simp [Usuario.agregar_prestamo]
              omega

/-- Step lemma: a return through the catalog state preserves the
three-loan cap over all registered users. -/
theorem devolver_prestamo_preserva_tope (b : Biblioteca) (pid : Nat) (now : ℚ)
    (h : invarianteTope b) : invarianteTope (b.devolver_prestamo pid now).2 := by
  cases hp : b.prestamos.find? (fun q => q.id = pid) with
  | none => simpa [Biblioteca.devolver_prestamo, hp] using h
  | some p =>
    cases hu : b.buscar_usuario p.usuarioId with
    | none => simpa [Biblioteca.devolver_prestamo, hp, hu] using h
    | some u =>
      cases hpub : b.buscar_publicacion p.publicacionId with
      | none => simpa [Biblioteca.devolver_prestamo, hp, hu, hpub] using h
      | some pub =>
        intro v hv
        simp only [Biblioteca.devolver_prestamo, hp, hu, hpub] at hv
        rcases mem_reemplazarUsuario hv with hmem | heq
        · exact h v hmem
        · subst heq
          exact le_trans (devolver_long_prestamos p u pub now)
            (h u (List.mem_of_find?_eq_some hu))

/-- Every external operation preserves the three-loan cap. -/
theorem aplicar_preserva_tope (b : Biblioteca) (op : Operacion)
    (h : invarianteTope b) : invarianteTope (aplicar b op) := by
  cases op with
  | registrarPublicacion i t a v =>
    intro u hu
    exact h u hu
  | registrarUsuario i n e =>
    intro u hu
    rcases List.mem_append.mp hu with hu | hu
    · exact h u hu
    · rw [List.mem_singleton.mp hu]
      simp [Usuario.init]
  | crearPrestamo uid pid now => exact crear_prestamo_preserva_tope b uid pid now h
  | devolverPrestamo pid now => exact devolver_prestamo_preserva_tope b pid now h

/-- Folding any operation sequence preserves the three-loan cap. -/
theorem foldl_preserva_tope (ops : List Operacion) (b : Biblioteca)
    (h : invarianteTope b) : invarianteTope (ops.foldl aplicar b) := by
  induction ops generalizing b with
  | nil => exact h
  | cons op rest ih => exact ih _ (aplicar_preserva_tope b op h)

/-- Claim C1: when a loan still active is returned after its due
timestamp, `devolver` computes the penalty as the floored (and
non-negative) whole number of days between the due timestamp and the
actual return timestamp, multiplied by the per-variant daily rate,
records it on the loan and posts the same amount to the user's
accumulated penalty; a return at or before the due timestamp leaves the
loan's penalty 0 and posts nothing to the user. -/
theorem claim_C1_ley_penalizacion (p : Prestamo) (u : Usuario) (pub : Publicacion) (now : ℚ)
    (hactivo : p.fechaDevolucionReal = none) (hpen : p.penalizacion = 0) :
    (p.fechaDevolucionEsperada < now →
      0 ≤ ⌊now - p.fechaDevolucionEsperada⌋ ∧
      (p.devolver u pub now).2.1.penalizacion =
        ⌊now - p.fechaDevolucionEsperada⌋ * tarifaDiaria pub.variante ∧
      (p.devolver u pub now).2.2.1.penalizacionAcumulada =
        u.penalizacionAcumulada +
          ⌊now - p.fechaDevolucionEsperada⌋ * tarifaDiaria pub.variante) ∧
    (now ≤ p.fechaDevolucionEsperada →
      (p.devolver u pub now).2.1.penalizacion = 0 ∧
      (p.devolver u pub now).2.2.1.penalizacionAcumulada = u.penalizacionAcumulada) := by
  constructor
  · intro hlt
    refine ⟨Int.floor_nonneg.mpr (by linarith), ?_, ?_⟩ <;>
      cases hm : pub.marcar_devuelto <;>
        simp [Prestamo.devolver, hactivo, hm, hlt, Usuario.agregar_penalizacion,
          Usuario.remover_prestamo, calcular_penalizacion_eq_tarifa]
  · intro hle
    have hngt : ¬ now > p.fechaDevolucionEsperada := not_lt.mpr hle
    cases hm : pub.marcar_devuelto <;>
      simp [Prestamo.devolver, hactivo, hm, hngt, hpen, Usuario.agregar_penalizacion,
        Usuario.remover_prestamo]

/-- Witness for C1: the demo loan (due at day 7) returned at day 17 gets
penalty `⌊10⌋ * 1` recorded and posted. -/
theorem claim_C1_witness :
    0 ≤ ⌊(17 : ℚ) - prActivo.fechaDevolucionEsperada⌋ ∧
    (prActivo.devolver uDemo pubPrestada 17).2.1.penalizacion =
      ⌊(17 : ℚ) - prActivo.fechaDevolucionEsperada⌋ * tarifaDiaria pubPrestada.variante ∧
    (prActivo.devolver uDemo pubPrestada 17).2.2.1.penalizacionAcumulada =
      uDemo.penalizacionAcumulada +
        ⌊(17 : ℚ) - prActivo.fechaDevolucionEsperada⌋ * tarifaDiaria pubPrestada.variante :=
  (claim_C1_ley_penalizacion prActivo uDemo pubPrestada 17 rfl rfl).1
    (by norm_num [prActivo, Prestamo.init])

/-- Claim C2: each of the four `crear_prestamo` checks aborts the
operation with its own error, in source order, and returns the library
state completely unchanged (collections, loan-id counter, user and
publication state included) with no loan created. -/
theorem claim_C2_crear_prestamo_atomico (b : Biblioteca) (uid pid : Nat) (now : ℚ) :
    (b.buscar_usuario uid = none →
      b.crear_prestamo uid pid now = (some "Usuario no encontrado", b, none)) ∧
    (∀ u, b.buscar_usuario uid = some u →
      (b.buscar_publicacion pid = none →
        b.crear_prestamo uid pid now = (some "Publicación no encontrada", b, none)) ∧
      (∀ pub, b.buscar_publicacion pid = some pub →
        (u.puede_pedir_prestamo = false →
          b.crear_prestamo uid pid now =
            (some "El usuario no puede pedir préstamos en este momento", b, none)) ∧
        (u.puede_pedir_prestamo = true → pub.disponible = false →
          b.crear_prestamo uid pid now =
            (some "La publicación no está disponible", b, none)))) := by
  refine ⟨?_, ?_⟩
  · intro h
    simp [Biblioteca.crear_prestamo, h]
  · intro u hu
    refine ⟨?_, ?_⟩
    · intro hp
      simp [Biblioteca.crear_prestamo, hu, hp]
    · intro pub hp
      refine ⟨?_, ?_⟩
      · intro hno
        simp [Biblioteca.crear_prestamo, hu, hp, hno]
      · intro hsi hnd
        simp [Biblioteca.crear_prestamo, hu, hp, hsi, hnd]

/-- Witness for C2: creating a loan for an unregistered user on the
empty library fails and leaves it untouched. -/
theorem claim_C2_witness :
    Biblioteca.init.crear_prestamo 1 10 0 =
      (some "Usuario no encontrado", Biblioteca.init, none) :=
  (claim_C2_crear_prestamo_atomico Biblioteca.init 1 10 0).1 rfl

/-- Claim C3: after any sequence of external operations (registrations,
loan creations through the catalog, returns) starting from a fresh
library, every registered user holds at most 3 active loans. -/
theorem claim_C3_tope_prestamos_activos (ops : List Operacion) (u : Usuario)
    (hu : u ∈ (ejecutar ops).usuarios) : u.prestamosActivos.length ≤ 3 :=
  foldl_preserva_tope ops Biblioteca.init (by intro v hv; simp [Biblioteca.init] at hv) u hu

/-- Witness for C3: a freshly registered user in a one-operation run is
under the cap. -/
theorem claim_C3_witness :
    uDemo ∈ (ejecutar [Operacion.registrarUsuario 1 "Ana" "ana@correo"]).usuarios ∧
    uDemo.prestamosActivos.length ≤ 3 :=
  ⟨List.mem_singleton.mpr rfl,
   claim_C3_tope_prestamos_activos [Operacion.registrarUsuario 1 "Ana" "ana@correo"] uDemo
     (List.mem_singleton.mpr rfl)⟩

/-- Claim C4: availability alternates strictly: on an available
publication `marcar_prestado` flips only the flag and `marcar_devuelto`
fails; on an unavailable one `marcar_prestado` fails and
`marcar_devuelto` flips only the flag; the failing transition performs
no mutation (the error carries no updated state because the method
checks before touching anything). -/
theorem claim_C4_disponibilidad_alterna (p : Publicacion) :
    (p.disponible = true →
      p.marcar_prestado = .ok { p with disponible := false } ∧
      p.marcar_devuelto = .error "La publicación no está prestada") ∧
    (p.disponible = false →
      p.marcar_prestado = .error "La publicación ya está prestada" ∧
      p.marcar_devuelto = .ok { p with disponible := true }) := by
  constructor <;> intro h <;>
    simp [Publicacion.marcar_prestado, Publicacion.marcar_devuelto, h]

/-- Witness for C4: the available demo book loans out and refuses a
return. -/
theorem claim_C4_witness :
    pubDemo.disponible = true ∧
    (pubDemo.marcar_prestado = .ok { pubDemo with disponible := false } ∧
      pubDemo.marcar_devuelto = .error "La publicación no está prestada") :=
  ⟨rfl, (claim_C4_disponibilidad_alterna pubDemo).1 rfl⟩

/-- Claim C5: for a user with a non-negative accumulated penalty (the
only kind the system produces), `puede_pedir_prestamo` is true exactly
when the active-loan count is under 3 and the penalty is 0; and a user
found with a positive penalty can never successfully create a loan —
the call errors and changes nothing. -/
theorem claim_C5_elegibilidad :
    (∀ u : Usuario, 0 ≤ u.penalizacionAcumulada →
      (u.puede_pedir_prestamo = true ↔
        u.prestamosActivos.length < 3 ∧ u.penalizacionAcumulada = 0)) ∧
    (∀ (b : Biblioteca) (uid pid : Nat) (now : ℚ) (u : Usuario),
      b.buscar_usuario uid = some u → 0 < u.penalizacionAcumulada →
      (b.crear_prestamo uid pid now).1 ≠ none ∧
      (b.crear_prestamo uid pid now).2 = (b, none)) := by
  constructor
  · intro u h
    unfold Usuario.puede_pedir_prestamo
    split_ifs with h1 h2
    · simp only [Bool.false_eq_true, false_iff]
      rintro ⟨hl, -⟩
      omega
    · simp only [Bool.false_eq_true, false_iff]
      rintro ⟨-, hp⟩
      rw [hp] at h2
      exact lt_irrefl 0 h2
    · constructor
      · intro _
        exact ⟨by omega, le_antisymm (not_lt.mp h2) h⟩
      · intro _
        rfl
  · intro b uid pid now u hu hpen
    have hpuede : u.puede_pedir_prestamo = false := by
      unfold Usuario.puede_pedir_prestamo
      split_ifs with h1 <;> rfl
    unfold Biblioteca.crear_prestamo
    rw [hu]
    cases hp : b.buscar_publicacion pid
    · simp
    · simp [hpuede]

/-- Witness for C5: the indebted fixture user is ineligible and their
loan attempt fails without mutation. -/
theorem claim_C5_witness :
    ((uMulta.puede_pedir_prestamo = true ↔
        uMulta.prestamosActivos.length < 3 ∧ uMulta.penalizacionAcumulada = 0)) ∧
    ((bCausas.crear_prestamo 3 10 0).1 ≠ none ∧
      (bCausas.crear_prestamo 3 10 0).2 = (bCausas, none)) :=
  ⟨claim_C5_elegibilidad.1 uMulta (by decide),
   claim_C5_elegibilidad.2 bCausas 3 10 0 uMulta (by decide) (by decide)⟩

/-- Claim C6: `devolver` on a loan whose return timestamp is already set
fails with the already-returned error and leaves the loan (timestamp and
recorded penalty included), the user and the publication exactly as they
were. -/
theorem claim_C6_devolver_una_vez (p : Prestamo) (u : Usuario) (pub : Publicacion)
    (now t0 : ℚ) (h : p.fechaDevolucionReal = some t0) :
    p.devolver u pub now = (some "El préstamo ya fue devuelto", p, u, pub) := by
  simp [Prestamo.devolver, h]

/-- Witness for C6: returning the already-returned fixture loan again
fails and changes nothing. -/
theorem claim_C6_witness :
    prDevuelto.devolver uDemo pubDemo 20 =
      (some "El préstamo ya fue devuelto", prDevuelto, uDemo, pubDemo) :=
  claim_C6_devolver_una_vez prDevuelto uDemo pubDemo 20 17 rfl

/-- Counterexample for C7: the class `Biblioteca` exposes no return
operation at all — neither a `devolver_prestamo` (the name a
`returnLoan(loanId)` would carry in this codebase) nor anything else
beyond its six public methods; returns are invoked directly on the
`Prestamo` object, as the repository's own tests do. -/
theorem claim_C7_contraejemplo :
    "devolver_prestamo" ∉ Biblioteca.metodos ∧ "returnLoan" ∉ Biblioteca.metodos ∧
    "devolver" ∉ Biblioteca.metodos := by
  decide

/-- Amended C7: the catalog exposes no `returnLoan(loanId)`; a return is
a direct `devolver` call on the loan object (rendered over the catalog
state by `Biblioteca.devolver_prestamo`).  That rendering leaves the
state untouched when no loan with the id exists (the spec-modelled
`LoanNotFound` branch), and surfaces the already-returned error
unchanged — with no state change — when the resolved loan was already
returned. -/
theorem claim_C7_devolucion_sin_catalogo (b : Biblioteca) (i : Nat) (now : ℚ) :
    (b.prestamos.find? (fun p => p.id = i) = none →
      b.devolver_prestamo i now = (some "Préstamo no encontrado", b)) ∧
    (∀ p u pub t0, b.prestamos.find? (fun q => q.id = i) = some p →
      b.buscar_usuario p.usuarioId = some u →
      b.buscar_publicacion p.publicacionId = some pub →
      p.fechaDevolucionReal = some t0 →
      b.devolver_prestamo i now = (some "El préstamo ya fue devuelto", b)) := by
  constructor
  · intro h
    simp [Biblioteca.devolver_prestamo, h]
  · intro p u pub t0 hp hu hpub hret
    have hdev : p.devolver u pub now = (some "El préstamo ya fue devuelto", p, u, pub) := by
      simp [Prestamo.devolver, hret]
    have hu' : b.usuarios.find? (fun q => q.id = p.usuarioId) = some u := hu
    have hpub' : b.publicaciones.find? (fun q => q.id = p.publicacionId) = some pub := hpub
    have h1 := reemplazarPrestamo_encontrado b.prestamos i p hp
    have h2 := reemplazarUsuario_encontrado b.usuarios p.usuarioId u hu'
    have h3 := reemplazarPublicacion_encontrado b.publicaciones p.publicacionId pub hpub'
    have hid : p.id = i := by
      have := List.find?_some hp
      simpa using this
    unfold Biblioteca.devolver_prestamo
    rw [hp]
    dsimp only
    rw [hu, hpub]
    dsimp only
    rw [hdev]
    dsimp only
    rw [hid, h1, h2, h3]

/-- Witness for C7: asking the empty library to return loan 1 fails with
no loan found and no mutation. -/
theorem claim_C7_witness :
    Biblioteca.init.devolver_prestamo 1 0 = (some "Préstamo no encontrado", Biblioteca.init) :=
  (claim_C7_devolucion_sin_catalogo Biblioteca.init 1 0).1 rfl

/-- Counterexample for C8: at the same library state and time, the
spec's `createLoan` with a caller-supplied period of 14 days produces a
loan due at day 14, while the source's `crear_prestamo` — which has no
period parameter a caller could supply — produces a loan due at day 7;
the two operations disagree, so `crear_prestamo` does not implement a
caller-supplied period. -/
theorem claim_C8_contraejemplo :
    (bDemo.crear_prestamo_spec 1 10 0 14).2.2.map Prestamo.fechaDevolucionEsperada =
      some 14 ∧
    (bDemo.crear_prestamo 1 10 0).2.2.map Prestamo.fechaDevolucionEsperada = some 7 ∧
    (7 : ℚ) ≠ 14 := by
  refine ⟨?_, ?_, by norm_num⟩ <;>
    norm_num [bDemo, uDemo, pubDemo, Biblioteca.crear_prestamo_spec, Biblioteca.crear_prestamo,
      Biblioteca.init, Biblioteca.agregar_usuario, Biblioteca.agregar_publicacion,
      Biblioteca.buscar_usuario, Biblioteca.buscar_publicacion, Usuario.init,
      Publicacion.init, Usuario.puede_pedir_prestamo, Publicacion.marcar_prestado,
      Prestamo.init]

/-- Amended C8: `crear_prestamo` accepts no loan-period argument and
always leaves the constructor's `dias_prestamo` at its default 7, so
every successful creation yields a loan due exactly 7 days after its
borrow timestamp; the `Prestamo` constructor itself takes a period and
sets due = borrow + period. -/
theorem claim_C8_periodo_fijo :
    (∀ (i uid pid : Nat) (now : ℚ) (dias : Int),
      (Prestamo.init i uid pid now dias).fechaPrestamo = now ∧
      (Prestamo.init i uid pid now dias).fechaDevolucionEsperada = now + dias) ∧
    (∀ (b : Biblioteca) (uid pid : Nat) (now : ℚ) (b2 : Biblioteca) (pr : Prestamo),
      b.crear_prestamo uid pid now = (none, b2, some pr) →
      pr.fechaPrestamo = now ∧ pr.fechaDevolucionEsperada = now + 7) := by
  constructor
  · intro i uid pid now dias
    exact ⟨rfl, rfl⟩
  · intro b uid pid now b2 pr h
    unfold Biblioteca.crear_prestamo at h
    split at h
    · simp at h
    · split at h
      · simp at h
      · split at h
        · simp at h
        · split at h
          · simp at h
          · split at h
            · simp at h
            · simp only [Prod.mk.injEq, Option.some.injEq] at h
              obtain ⟨-, -, hpr⟩ := h
              rw [← hpr]
              exact ⟨rfl, rfl⟩

/-- Witness for C8: the loan constructor honours an explicit 14-day
period, and the loan created on the demo library is due 7 days after
borrowing. -/
theorem claim_C8_witness :
    ((Prestamo.init 1 1 10 0 14).fechaPrestamo = 0 ∧
      (Prestamo.init 1 1 10 0 14).fechaDevolucionEsperada = 0 + 14) ∧
    (prCreado.fechaPrestamo = 0 ∧ prCreado.fechaDevolucionEsperada = 0 + 7) :=
  ⟨claim_C8_periodo_fijo.1 1 1 10 0 14,
   claim_C8_periodo_fijo.2 bDemo 1 10 0 (bDemo.crear_prestamo 1 10 0).2.1 prCreado rfl⟩

/-- Counterexample for C9: one fixture user is blocked by the
three-loan cap (3 active loans, zero penalty), the other by an unpaid
penalty (no loans, penalty 10); `crear_prestamo` rejects both with the
very same single error — the caller cannot distinguish the two
sub-causes. -/
theorem claim_C9_contraejemplo :
    3 ≤ uTope.prestamosActivos.length ∧ uTope.penalizacionAcumulada = 0 ∧
    uMulta.prestamosActivos.length < 3 ∧ 0 < uMulta.penalizacionAcumulada ∧
    (bCausas.crear_prestamo 2 10 0).1 =
      some "El usuario no puede pedir préstamos en este momento" ∧
    (bCausas.crear_prestamo 3 10 0).1 =
      some "El usuario no puede pedir préstamos en este momento" ∧
    (bCausas.crear_prestamo 2 10 0) = (bCausas.crear_prestamo 3 10 0) := by
  decide

/-- Amended C9: whenever the resolved user is ineligible (for either
sub-cause), `crear_prestamo` fails with one and the same
undifferentiated error message and mutates nothing; the error does not
say which condition failed. -/
theorem claim_C9_error_no_distingue (b : Biblioteca) (uid pid : Nat) (now : ℚ)
    (u : Usuario) (hu : b.buscar_usuario uid = some u)
    (hpub : b.buscar_publicacion pid ≠ none)
    (hno : u.puede_pedir_prestamo = false) :
    b.crear_prestamo uid pid now =
      (some "El usuario no puede pedir préstamos en este momento", b, none) := by
  cases hp : b.buscar_publicacion pid with
  | none => exact absurd hp hpub
  | some pub => simp [Biblioteca.crear_prestamo, hu, hp, hno]

/-- Witness for C9: the capped fixture user is rejected with the single
eligibility error. -/
theorem claim_C9_witness :
    bCausas.crear_prestamo 2 10 0 =
      (some "El usuario no puede pedir préstamos en este momento", bCausas, none) :=
  claim_C9_error_no_distingue bCausas 2 10 0 uTope (by decide) (by decide) (by decide)

/-- Claim C10: when all four checks of `crear_prestamo` pass, the very
publication whose availability was just checked is the one
`marcar_prestado` is applied to, so that call cannot raise: it returns
the flipped publication and the whole operation succeeds with no
error. -/
theorem claim_C10_marcar_prestado_seguro (b : Biblioteca) (uid pid : Nat) (now : ℚ)
    (u : Usuario) (pub : Publicacion)
    (hu : b.buscar_usuario uid = some u) (hp : b.buscar_publicacion pid = some pub)
    (hpuede : u.puede_pedir_prestamo = true) (hdisp : pub.disponible = true) :
    pub.marcar_prestado = .ok { pub with disponible := false } ∧
    (b.crear_prestamo uid pid now).1 = none := by
  constructor
  · simp [Publicacion.marcar_prestado, hdisp]
  · simp [Biblioteca.crear_prestamo, hu, hp, hpuede, hdisp, Publicacion.marcar_prestado]

/-- Witness for C10: creating the demo loan succeeds and its internal
`marcar_prestado` call cannot fail. -/
theorem claim_C10_witness :
    pubDemo.marcar_prestado = .ok { pubDemo with disponible := false } ∧
    (bDemo.crear_prestamo 1 10 0).1 = none :=
  claim_C10_marcar_prestado_seguro bDemo 1 10 0 uDemo pubDemo
    (by decide) (by decide) (by decide) (by decide)
